import Mathlib

/-!
Verification development for the node-cachefy caching facade.

The definitions below are a shallow embedding of the TypeScript
source of the repository:
* `MemoryDriver` models `src/drivers/memory.driver.ts` (the in-process
  entry/expiry/eviction engine).  The JS `Map` backing the driver is
  modelled as an association list in insertion order, which matches the
  iteration order of a JS `Map` (insertion order; updating an existing
  key keeps its position).  `Date.now()` readings are passed explicitly
  as an integer `now` parameter, one clock reading per operation.
* `RedisConnState` and `redisStep` model the reconnection state machine
  of `src/drivers/redis.driver.ts` (`handleConnectionError`,
  `scheduleReconnect`, the timer callback and the connect listener).
* `stepCall` models the lazy-initialization path of
  `Cache.getStoreInstance` (src/cache.ts), with the single `await`
  boundary at `driver.initialize()` made explicit.
* `runFacadeOp` models the eleven top-level `Cache` facade methods,
  each of which resolves the default store before touching any backend.

Values stored in the cache are dynamically typed in JS; they are
modelled by the inductive `JSVal`, which carries enough structure to
express the typeof-number test in `increment`.
-/

/-- A dynamically typed JavaScript value, as stored in the cache. -/
inductive JSVal where
  | num : Int → JSVal
  | str : String → JSVal
  | bool : Bool → JSVal
  | jnull : JSVal
deriving Repr, DecidableEq

/-- Source `interface CacheEntry` of memory.driver.ts: value plus expiry and
recency metadata.  `expiresAt = none` models the JS `null` ("never
expires"); times are milliseconds since epoch. -/
structure CacheEntry where
  value : JSVal
  expiresAt : Option Int
  createdAt : Int
  accessedAt : Int
deriving Repr, DecidableEq

/-- The JS `Map<string, CacheEntry>` in insertion order. -/
abbrev Store := List (String × CacheEntry)

namespace Store

/-- Models `Map.get`: the entry stored under `k`, if any. -/
def findEntry : Store → String → Option CacheEntry
  | [], _ => none
  | (k', e) :: rest, k => if k' = k then some e else findEntry rest k

/-- Models `Map.has`. -/
def hasKey (s : Store) (k : String) : Bool :=
  (s.findEntry k).isSome

/-- Models `Map.set`: update in place when the key is present (keeping its
insertion position, as a JS `Map` does), append otherwise. -/
def setEntry : Store → String → CacheEntry → Store
  | [], k, e => [(k, e)]
  | (k', e') :: rest, k, e =>
      if k' = k then (k, e) :: rest else (k', e') :: setEntry rest k e

/-- Models `Map.delete`: remove the entry stored under `k`. -/
def eraseEntry : Store → String → Store
  | [], _ => []
  | (k', e') :: rest, k =>
      if k' = k then rest else (k', e') :: eraseEntry rest k

end Store

/-- Source `ErrorMode` of types/errors.ts. -/
inductive ErrorMode where
  | strict
  | graceful
deriving Repr, DecidableEq

/-- The `reconnect` policy of `DriverOptions`; all fields are optional in
the source and fall back via `??` at their use sites. -/
structure ReconnectPolicy where
  maxRetries : Option Nat
  retryDelay : Option Nat
  exponentialBackoff : Option Bool
deriving Repr, DecidableEq

/-- Source `DriverOptions` of types/driver.ts as resolved by the driver
constructors.  The source field `keyPrefix` is here called `keyPref`. -/
structure DriverOptions where
  keyPref : String
  defaultTtl : Int
  errorMode : ErrorMode
  reconnect : Option ReconnectPolicy
deriving Repr, DecidableEq

/-- Source `MemoryConfig` of types/config.ts: both fields optional. -/
structure MemoryConfig where
  maxSize : Option Nat
  cleanupInterval : Option Nat
deriving Repr, DecidableEq

/-- The mutable state of a `MemoryDriver` instance, together with its
immutable configuration. -/
structure MemoryDriver where
  config : MemoryConfig
  options : DriverOptions
  store : Store
  hits : Nat
  misses : Nat
  sets : Nat
  deletes : Nat
deriving Repr, DecidableEq

/-- Source `getFullKey`: `this.options.keyPrefix ? prefix + key : key`
(a JS string is truthy exactly when non-empty). -/
def getFullKey (opts : DriverOptions) (key : String) : String :=
  if opts.keyPref = "" then key else opts.keyPref ++ key

/-- The expiry test `entry.expiresAt !== null && Date.now() > entry.expiresAt`. -/
def CacheEntry.isExpired (e : CacheEntry) (now : Int) : Bool :=
  match e.expiresAt with
  | some t => decide (now > t)
  | none => false

namespace MemoryDriver

/-- Source `MemoryDriver.get` (lines 46-67): purge and miss when expired,
otherwise refresh `accessedAt` and return the stored value. -/
def get (d : MemoryDriver) (key : String) (now : Int) :
    Option JSVal × MemoryDriver :=
  let fullKey := getFullKey d.options key
  match d.store.findEntry fullKey with
  | none => (none, { d with misses := d.misses + 1 })
  | some entry =>
      if entry.isExpired now then
        (none, { d with store := d.store.eraseEntry fullKey,
                        misses := d.misses + 1 })
      else
        (some entry.value,
         { d with store := d.store.setEntry fullKey { entry with accessedAt := now },
                  hits := d.hits + 1 })

/-- Source `effectiveTtl = ttl ?? this.options.defaultTtl` (the JS `??`
falls back only when `ttl` is null or undefined, not when it is 0). -/
def effectiveTtl (ttl : Option Int) (dflt : Int) : Int :=
  ttl.getD dflt

/-- The capacity test of `set` (lines 75-79):
`this.config.maxSize && this.store.size >= this.config.maxSize && !this.store.has(fullKey)`.
A JS number is truthy exactly when non-zero. -/
def atCapacity (d : MemoryDriver) (fullKey : String) : Bool :=
  match d.config.maxSize with
  | some m => m != 0 && decide (m ≤ d.store.length) && !(d.store.hasKey fullKey)
  | none => false

/-- Source `evictLeastRecentlyUsed` (lines 250-264): scan for an entry whose
`accessedAt` is strictly below the running minimum, which starts at the
current clock reading; delete it when one was found. -/
def evictLeastRecentlyUsed (s : Store) (now : Int) : Store :=
  let scan := s.foldl
    (fun acc ke =>
      if ke.2.accessedAt < acc.2 then (some ke.1, ke.2.accessedAt) else acc)
    ((none : Option String), now)
  match scan.1 with
  | some oldestKey => s.eraseEntry oldestKey
  | none => s

/-- Source `MemoryDriver.set` (lines 69-93).  The stored `expiresAt` is
`now + effectiveTtl * 1000` when `effectiveTtl && effectiveTtl > 0`
(over integers the truthiness conjunct is subsumed by `> 0`),
otherwise `null`. -/
def set (d : MemoryDriver) (key : String) (value : JSVal) (ttl : Option Int)
    (now : Int) : MemoryDriver :=
  let fullKey := getFullKey d.options key
  let eTtl := effectiveTtl ttl d.options.defaultTtl
  let d1 :=
    if atCapacity d fullKey then
      { d with store := evictLeastRecentlyUsed d.store now }
    else d
  let entry : CacheEntry :=
    { value := value
      expiresAt := if 0 < eTtl then some (now + eTtl * 1000) else none
      createdAt := now
      accessedAt := now }
  { d1 with store := d1.store.setEntry fullKey entry, sets := d1.sets + 1 }

/-- Source `MemoryDriver.delete` (lines 95-105): reports physical presence,
with no expiry check. -/
def delete (d : MemoryDriver) (key : String) : Bool × MemoryDriver :=
  let fullKey := getFullKey d.options key
  let existed := d.store.hasKey fullKey
  if existed then
    (true, { d with store := d.store.eraseEntry fullKey,
                    deletes := d.deletes + 1 })
  else
    (false, d)

/-- Source `MemoryDriver.exists` (lines 107-122): purge and report false when
expired; otherwise report true.  Note: unlike `get`, it does not touch
`accessedAt`. -/
def existsKey (d : MemoryDriver) (key : String) (now : Int) :
    Bool × MemoryDriver :=
  let fullKey := getFullKey d.options key
  match d.store.findEntry fullKey with
  | none => (false, d)
  | some entry =>
      if entry.isExpired now then
        (false, { d with store := d.store.eraseEntry fullKey })
      else
        (true, d)

/-- Source `MemoryDriver.deleteMultiple` (lines 150-161): one `delete` per key,
counting the ones that reported true. -/
def deleteMultiple (d : MemoryDriver) (keys : List String) :
    Nat × MemoryDriver :=
  keys.foldl
    (fun acc k =>
      let r := acc.2.delete k
      (acc.1 + (if r.1 then 1 else 0), r.2))
    (0, d)

/-- Source line `typeof currentValue === number ? currentValue : 0` (the
type tag quoted in the source) applied to the result of `get` (which is `null` on a miss). -/
def numericOrZero : Option JSVal → Int
  | some (.num i) => i
  | _ => 0

/-- Source `MemoryDriver.increment` (lines 163-170): read via `get`, coerce a
non-number to 0, add, and store the sum via `set` with no explicit ttl. -/
def increment (d : MemoryDriver) (key : String) (inc : Int) (now : Int) :
    Int × MemoryDriver :=
  let g := d.get key now
  let numericValue := numericOrZero g.1
  let newValue := numericValue + inc
  (newValue, g.2.set key (.num newValue) none now)

/-- Source `MemoryDriver.decrement` (lines 172-174): `increment(key, -decrement)`. -/
def decrement (d : MemoryDriver) (key : String) (dec : Int) (now : Int) :
    Int × MemoryDriver :=
  d.increment key (-dec) now

end MemoryDriver

/-! ### Reconnection state machine of redis.driver.ts

State observed by the claims: the pending `reconnectTimer` (modelled as
a list of pending timer delays, so that "at most one" is provable
rather than assumed), `reconnectAttempts`, and `isConnecting`.  Events
are the points where the source mutates this state: a connection
error/end event, the firing of the reconnect timer (which increments
the attempt counter and starts `reconnect()`), the completion of that
in-flight `reconnect()` (success resets the counter via `initialize()`
and the `connect` listener; failure re-enters `handleConnectionError`),
and an explicit successful `reconnect()` call. -/

structure RedisConnState where
  reconnectTimers : List Nat
  reconnectAttempts : Nat
  isConnecting : Bool
deriving Repr, DecidableEq

/-- Source `scheduleReconnect` (redis.driver.ts lines 406-434): return if a
timer is already pending, else compute the delay
(`baseDelay * 2 ^ min(attempts, 6)` under exponential backoff, with
`baseDelay = retryDelay ?? 1000`) and schedule one timer. -/
def scheduleReconnect (re : Option ReconnectPolicy) (st : RedisConnState) :
    RedisConnState :=
  if st.reconnectTimers ≠ [] then st
  else
    let baseDelay := (re.bind ReconnectPolicy.retryDelay).getD 1000
    let expo := (re.bind ReconnectPolicy.exponentialBackoff).getD true
    let delay := if expo then baseDelay * 2 ^ (min st.reconnectAttempts 6)
                 else baseDelay
    { st with reconnectTimers := [delay] }

/-- Source `handleConnectionError` (lines 393-404): no-op while connecting or
without a reconnect policy; no-op once `reconnectAttempts >= maxRetries`
(`maxRetries = policy.maxRetries ?? 5`); otherwise schedule. -/
def handleConnectionError (re : Option ReconnectPolicy) (st : RedisConnState) :
    RedisConnState :=
  if st.isConnecting then st
  else
    match re with
    | none => st
    | some r =>
        if r.maxRetries.getD 5 ≤ st.reconnectAttempts then st
        else scheduleReconnect re st

/-- The events that drive the reconnection state. -/
inductive RedisEvent where
  | connError
  | timerBegin
  | timerEndOk
  | timerEndFail
  | manualReconnectOk
deriving Repr, DecidableEq

/-- One step of the reconnection state machine, read off the source:
* `connError`: the `error`/`end` listeners call `handleConnectionError`.
* `timerBegin`: a pending timer fires; the callback clears the timer
  field, increments `reconnectAttempts`, sets `isConnecting` and starts
  `await this.reconnect()` (no-op when no timer is pending).
* `timerEndOk`: the awaited `reconnect()` resolves: `initialize()` and
  the `connect` listener reset `reconnectAttempts` to 0 and clear any
  timer, and the callback clears `isConnecting`.
* `timerEndFail`: the awaited `reconnect()` rejects: the catch clause
  clears `isConnecting` and calls `handleConnectionError` again.
* `manualReconnectOk`: an explicit successful `reconnect()` call:
  `disconnect()` clears the timer and `initialize()` resets the counter. -/
def redisStep (re : Option ReconnectPolicy) (st : RedisConnState) :
    RedisEvent → RedisConnState
  | .connError => handleConnectionError re st
  | .timerBegin =>
      if st.reconnectTimers = [] then st
      else { st with reconnectTimers := []
                     reconnectAttempts := st.reconnectAttempts + 1
                     isConnecting := true }
  | .timerEndOk =>
      if st.isConnecting then
        { st with reconnectAttempts := 0, reconnectTimers := []
                  isConnecting := false }
      else st
  | .timerEndFail =>
      if st.isConnecting then
        handleConnectionError re { st with isConnecting := false }
      else st
  | .manualReconnectOk =>
      { st with reconnectTimers := [], reconnectAttempts := 0 }

/-- Run a sequence of events from a state. -/
def redisRun (re : Option ReconnectPolicy) (st : RedisConnState) :
    List RedisEvent → RedisConnState
  | [] => st
  | e :: es => redisRun re (redisStep re st e) es

/-- Driver construction: no pending timer, zero attempts, not connecting. -/
def redisInit : RedisConnState := ⟨[], 0, false⟩

/-- The resolved retry bound: `this.options.reconnect.maxRetries ?? 5`. -/
def maxRetriesOf (re : Option ReconnectPolicy) : Nat :=
  (re.bind ReconnectPolicy.maxRetries).getD 5

/-- Invariant of the reconnection state: the attempt counter stays
within the bound, a pending timer certifies room for another attempt,
and at most one timer is pending. -/
def ConnInv (re : Option ReconnectPolicy) (st : RedisConnState) : Prop :=
  st.reconnectAttempts ≤ maxRetriesOf re
  ∧ (st.reconnectTimers ≠ [] → st.reconnectAttempts < maxRetriesOf re)
  ∧ st.reconnectTimers.length ≤ 1

/-! ### Lazy store initialization of Cache.getStoreInstance

`Cache.getStoreInstance` (and the structurally identical
`StoreManager.getStore`) runs synchronously from its entry up to the
single `await` inside `initializeStore`, namely
`await storeInstance.driver.initialize()`; the flag
`storeInstance.initialized = true` is only assigned after that promise
resolves.  Under the single-threaded cooperative JS scheduler a call is
therefore a coroutine with one suspension point.  `stepCall` is the
small-step semantics of one call for one fixed store name:

* `start`: the synchronous stretch — create the store entry if absent
  (with `initialized = false`); then, if `initialized` is already true,
  return immediately, else invoke `driver.initialize()` (counted in
  `initCalls`) and suspend;
* `awaitingInit`: the continuation after the awaited `initialize()`
  resolves — set `initialized := true` and return. -/

structure InitShared where
  hasEntry : Bool
  initialized : Bool
  initCalls : Nat
deriving Repr, DecidableEq

inductive CallPc where
  | start
  | awaitingInit
  | done
deriving Repr, DecidableEq

def stepCall : InitShared → CallPc → InitShared × CallPc
  | s, .start =>
      let s1 := if s.hasEntry then s
                else { s with hasEntry := true, initialized := false }
      if s1.initialized then (s1, .done)
      else ({ s1 with initCalls := s1.initCalls + 1 }, .awaitingInit)
  | s, .awaitingInit => ({ s with initialized := true }, .done)
  | s, .done => (s, .done)

/-- Two concurrent callers A and B of `getStoreInstance` for the same
store name, plus the shared manager state. -/
structure RaceState where
  shared : InitShared
  pcA : CallPc
  pcB : CallPc
deriving Repr, DecidableEq

/-- A scheduler choice: `true` steps caller A, `false` steps caller B. -/
def raceStep (st : RaceState) (choice : Bool) : RaceState :=
  if choice then
    let r := stepCall st.shared st.pcA
    { st with shared := r.1, pcA := r.2 }
  else
    let r := stepCall st.shared st.pcB
    { st with shared := r.1, pcB := r.2 }

def raceRun (st : RaceState) : List Bool → RaceState
  | [] => st
  | c :: cs => raceRun (raceStep st c) cs

/-- Before any access: no store entry exists and `initialize()` has
never been invoked. -/
def raceInit : RaceState := ⟨⟨false, false, 0⟩, .start, .start⟩

/-! ### The Cache facade

Each of the eleven public operations of the `Cache` class delegates as
`const store = await this.getDefaultStore(); return store.<op>(...)`.
`getDefaultStore` throws a `CacheConfigurationError` when
`this.defaultStore` is falsy (it is `null` before `initialize()` and
after `disconnect()`); only past that check is a store resolved and a
driver touched. -/

inductive CacheErrKind where
  | configuration
  | connection
  | driverError
  | serializationError
  | timeout
deriving Repr, DecidableEq

/-- Static fields of the `Cache` facade relevant to the guard. -/
structure FacadeState where
  configPresent : Bool
  defaultStore : Option String
deriving Repr, DecidableEq

/-- Source `Cache.getDefaultStore` (lines 177-183): throw a configuration
error when `!this.defaultStore` (JS: `null` or the empty string are
falsy), else hand the name to `getStoreInstance`. -/
def getDefaultStoreName (st : FacadeState) : Except CacheErrKind String :=
  match st.defaultStore with
  | none => .error .configuration
  | some s => if s = "" then .error .configuration else .ok s

inductive FacadeOp where
  | getOp
  | setOp
  | deleteOp
  | existsOp
  | clearOp
  | getMultipleOp
  | setMultipleOp
  | deleteMultipleOp
  | incrementOp
  | decrementOp
  | getStatsOp
deriving Repr, DecidableEq

/-- One facade operation: resolve the default store, then perform one
driver call.  The second component counts backend (driver) accesses;
it stays 0 whenever resolution fails.  Each branch mirrors one of the
eleven identically shaped methods of the `Cache` class. -/
def runFacadeOp (st : FacadeState) : FacadeOp → Except CacheErrKind Unit × Nat
  | .getOp =>
      match getDefaultStoreName st with
      | .error e => (.error e, 0)
      | .ok _ => (.ok (), 1)
  | .setOp =>
      match getDefaultStoreName st with
      | .error e => (.error e, 0)
      | .ok _ => (.ok (), 1)
  | .deleteOp =>
      match getDefaultStoreName st with
      | .error e => (.error e, 0)
      | .ok _ => (.ok (), 1)
  | .existsOp =>
      match getDefaultStoreName st with
      | .error e => (.error e, 0)
      | .ok _ => (.ok (), 1)
  | .clearOp =>
      match getDefaultStoreName st with
      | .error e => (.error e, 0)
      | .ok _ => (.ok (), 1)
  | .getMultipleOp =>
      match getDefaultStoreName st with
      | .error e => (.error e, 0)
      | .ok _ => (.ok (), 1)
  | .setMultipleOp =>
      match getDefaultStoreName st with
      | .error e => (.error e, 0)
      | .ok _ => (.ok (), 1)
  | .deleteMultipleOp =>
      match getDefaultStoreName st with
      | .error e => (.error e, 0)
      | .ok _ => (.ok (), 1)
  | .incrementOp =>
      match getDefaultStoreName st with
      | .error e => (.error e, 0)
      | .ok _ => (.ok (), 1)
  | .decrementOp =>
      match getDefaultStoreName st with
      | .error e => (.error e, 0)
      | .ok _ => (.ok (), 1)
  | .getStatsOp =>
      match getDefaultStoreName st with
      | .error e => (.error e, 0)
      | .ok _ => (.ok (), 1)

/-- Before `Cache.initialize()`: `config` and `defaultStore` are null. -/
def uninitializedFacade : FacadeState := ⟨false, none⟩

/-! ## Lemmas about the embedded operations -/

theorem Store.findEntry_setEntry_self (s : Store) (k : String) (e : CacheEntry) :
    (s.setEntry k e).findEntry k = some e := by
  induction s with
  | nil => simp [Store.setEntry, Store.findEntry]
  | cons he rest ih =>
      by_cases h : he.1 = k <;> simp [Store.setEntry, Store.findEntry, h, ih]

theorem Store.hasKey_eq_false_iff (s : Store) (k : String) :
    s.hasKey k = false ↔ s.findEntry k = none := by
  simp [Store.hasKey, Option.isSome]
  cases s.findEntry k <;> simp

theorem connInv_scheduleReconnect (re : Option ReconnectPolicy)
    (st : RedisConnState) (h : ConnInv re st)
    (hlt : st.reconnectAttempts < maxRetriesOf re) :
    ConnInv re (scheduleReconnect re st) := by
  unfold scheduleReconnect
  by_cases ht : st.reconnectTimers = []
  · simp only [ht]
    exact ⟨h.1, fun _ => hlt, by simp⟩
  · simp only [ne_eq, ht, not_false_eq_true, if_true]
    exact h

theorem connInv_handleConnectionError (re : Option ReconnectPolicy)
    (st : RedisConnState) (h : ConnInv re st) :
    ConnInv re (handleConnectionError re st) := by
  unfold handleConnectionError
  by_cases hc : st.isConnecting
  · simp [hc, h]
  · simp only [hc, if_false, Bool.false_eq_true]
    match re with
    | none => exact h
    | some r =>
        by_cases hle : r.maxRetries.getD 5 ≤ st.reconnectAttempts
        · simp [hle, h]
        · simp only [hle, if_false]
          exact connInv_scheduleReconnect (some r) st h
            (by simpa [maxRetriesOf] using Nat.lt_of_not_le hle)

theorem connInv_step (re : Option ReconnectPolicy) (st : RedisConnState)
    (e : RedisEvent) (h : ConnInv re st) : ConnInv re (redisStep re st e) := by
  cases e with
  | connError => exact connInv_handleConnectionError re st h
  | timerBegin =>
      unfold redisStep
      by_cases ht : st.reconnectTimers = []
      · simp [ht, h]
      · simp only [ht, if_false]
        refine ⟨h.2.1 ht, by simp, by simp⟩
  | timerEndOk =>
      unfold redisStep
      by_cases hc : st.isConnecting
      · simp only [hc, if_true]
        exact ⟨Nat.zero_le _, by simp, by simp⟩
      · simp [hc, h]
  | timerEndFail =>
      unfold redisStep
      by_cases hc : st.isConnecting
      · simp only [hc, if_true]
        exact connInv_handleConnectionError re _ ⟨h.1, h.2.1, h.2.2⟩
      · simp [hc, h]
  | manualReconnectOk =>
      exact ⟨Nat.zero_le _, by simp [redisStep], by simp [redisStep]⟩

theorem connInv_run (re : Option ReconnectPolicy) (st : RedisConnState)
    (es : List RedisEvent) (h : ConnInv re st) :
    ConnInv re (redisRun re st es) := by
  induction es generalizing st with
  | nil => exact h
  | cons e es ih => exact ih _ (connInv_step re st e h)

theorem connInv_init (re : Option ReconnectPolicy) : ConnInv re redisInit :=
  ⟨Nat.zero_le _, by simp [redisInit], by simp [redisInit]⟩

/-! ## Claim theorems -/

/-- A driver with capacity bound 1 holding one entry whose `accessedAt`
equals the current clock reading. -/
def c1Driver : MemoryDriver :=
  { config := ⟨some 1, none⟩
    options := ⟨"", 3600, .strict, none⟩
    store := [("a", ⟨.str "va", none, 0, 0⟩)]
    hits := 0, misses := 0, sets := 0, deletes := 0 }

/-- Claim C1: at the capacity bound, a `set` of a new key is specified
to evict exactly one entry so that the size never exceeds `maxSize`.
The code violates this: with `maxSize = 1`, one stored entry whose
`accessedAt` equals the clock reading taken by
`evictLeastRecentlyUsed`, and a `set` of a fresh key at that same
clock value, the strict comparison `entry.accessedAt < Date.now()`
finds no victim, nothing is evicted, and the store ends up holding two
entries. -/
theorem c1_capacity_bound_violated :
    (c1Driver.set "b" (.str "vb") none 0).store.length = 2
    ∧ (c1Driver.set "b" (.str "vb") none 0).store.hasKey "a" = true
    ∧ (c1Driver.set "b" (.str "vb") none 0).store.hasKey "b" = true
    ∧ ¬((c1Driver.set "b" (.str "vb") none 0).store.length ≤ 1) := by
  decide

/-- Claim C2: `increment(k, n)` on an absent key returns exactly `n`
and leaves the key present with value `n`; `decrement(k, n)` on an
absent key returns exactly `-n` and leaves the key present with value
`-n` (the missing key behaves as if it held zero). -/
theorem c2_counter_on_absent_key (d : MemoryDriver) (key : String)
    (n : Int) (now : Int)
    (habs : d.store.findEntry (getFullKey d.options key) = none) :
    (d.increment key n now).1 = n
    ∧ (Store.findEntry (d.increment key n now).2.store
        (getFullKey d.options key)).map CacheEntry.value = some (.num n)
    ∧ (d.decrement key n now).1 = -n
    ∧ (Store.findEntry (d.decrement key n now).2.store
        (getFullKey d.options key)).map CacheEntry.value = some (.num (-n)) := by
  refine ⟨?_, ?_, ?_, ?_⟩ <;>
    simp [MemoryDriver.increment, MemoryDriver.decrement, MemoryDriver.get,
      habs, MemoryDriver.numericOrZero, MemoryDriver.set,
      Store.findEntry_setEntry_self]

/-- Witness for C2 at a concrete empty driver. -/
theorem c2_counter_on_absent_key_witness :
    let d : MemoryDriver := ⟨⟨none, none⟩, ⟨"", 3600, .strict, none⟩, [], 0, 0, 0, 0⟩
    (d.increment "k" 7 0).1 = 7
    ∧ (Store.findEntry (d.increment "k" 7 0).2.store
        (getFullKey d.options "k")).map CacheEntry.value = some (.num 7)
    ∧ (d.decrement "k" 7 0).1 = -7
    ∧ (Store.findEntry (d.decrement "k" 7 0).2.store
        (getFullKey d.options "k")).map CacheEntry.value = some (.num (-7)) :=
  c2_counter_on_absent_key ⟨⟨none, none⟩, ⟨"", 3600, .strict, none⟩, [], 0, 0, 0, 0⟩
    "k" 7 0 (by decide)

/-- The write performed by `RedisDriver.set` (redis.driver.ts lines
92-115): `setEx` with the resolved ttl when `effectiveTtl &&
effectiveTtl > 0`, a plain `set` with no expiry otherwise.  The result
is the expiry argument handed to the backend (`none` = no expiry). -/
def redisSetTtl (ttl : Option Int) (dflt : Int) : Option Int :=
  let eTtl := MemoryDriver.effectiveTtl ttl dflt
  if 0 < eTtl then some eTtl else none

/-- A memory driver with default ttl 3600 and an empty store. -/
def c3Driver : MemoryDriver :=
  ⟨⟨none, none⟩, ⟨"", 3600, .strict, none⟩, [], 0, 0, 0, 0⟩

/-- Claim C3 counterexample: with configured default ttl 3600,
`set(k, v, 0)` is claimed to resolve the effective ttl to 3600 and thus
store the entry with expiry `now + 3600 * 1000`; the code resolves
`0 ?? 3600` to `0` and stores the entry with no expiry. -/
theorem c3_zero_ttl_keeps_zero :
    Store.findEntry (c3Driver.set "k" (.str "v") (some 0) 0).store "k"
      = some ⟨.str "v", none, 0, 0⟩
    ∧ MemoryDriver.effectiveTtl (some 0) 3600 = 0
    ∧ ¬(MemoryDriver.effectiveTtl (some 0) 3600 = 3600)
    ∧ ¬(Store.findEntry (c3Driver.set "k" (.str "v") (some 0) 0).store "k"
        = some ⟨.str "v", some 3600000, 0, 0⟩) := by
  decide

/-- Claim C3 (amended): only an absent ttl falls back to the configured
default of the driver; an explicitly passed ttl (zero included) is used
as-is; whenever the ttl after this resolution is zero or negative the
entry is stored with no expiry, and when positive it is stored with
expiry `now + ttl * 1000`.  The same resolution drives the choice of the
networked driver between `setEx(ttl)` and a plain un-expiring `set`. -/
theorem c3_ttl_resolution (d : MemoryDriver) (key : String) (v : JSVal)
    (ttl : Option Int) (now : Int) :
    MemoryDriver.effectiveTtl none d.options.defaultTtl = d.options.defaultTtl
    ∧ (∀ t : Int, MemoryDriver.effectiveTtl (some t) d.options.defaultTtl = t)
    ∧ Store.findEntry (d.set key v ttl now).store (getFullKey d.options key)
        = some { value := v
                 expiresAt :=
                   if 0 < MemoryDriver.effectiveTtl ttl d.options.defaultTtl
                   then some (now + MemoryDriver.effectiveTtl ttl d.options.defaultTtl * 1000)
                   else none
                 createdAt := now
                 accessedAt := now }
    ∧ redisSetTtl ttl d.options.defaultTtl
        = (if 0 < MemoryDriver.effectiveTtl ttl d.options.defaultTtl
           then some (MemoryDriver.effectiveTtl ttl d.options.defaultTtl)
           else none) := by
  refine ⟨rfl, fun t => rfl, ?_, rfl⟩
  simp [MemoryDriver.set, Store.findEntry_setEntry_self]

/-- A driver holding one never-expiring entry last accessed at time 5. -/
def c4Driver : MemoryDriver :=
  ⟨⟨none, none⟩, ⟨"", 3600, .strict, none⟩,
   [("k", ⟨.str "v", none, 5, 5⟩)], 0, 0, 0, 0⟩

/-- Claim C4 counterexample: `exists(k)` at time 10 on an unexpired
entry is claimed to refresh `accessedAt` to the current time; the code
reports presence but leaves the driver, and in particular the stored
`accessedAt`, untouched (only `get` refreshes recency). -/
theorem c4_exists_does_not_refresh :
    (c4Driver.existsKey "k" 10).1 = true
    ∧ (c4Driver.existsKey "k" 10).2 = c4Driver
    ∧ (Store.findEntry (c4Driver.existsKey "k" 10).2.store "k").map
        CacheEntry.accessedAt = some 5
    ∧ ¬((Store.findEntry (c4Driver.existsKey "k" 10).2.store "k").map
        CacheEntry.accessedAt = some 10) := by
  decide

/-- Claim C4 (amended): on `get` and `exists`, an entry whose
`expiresAt` is defined and strictly in the past is purged and reported
absent; otherwise `get` refreshes the `accessedAt` field of the entry
to the current time and returns the stored value, while `exists` reports
presence without modifying the driver state (recency is refreshed by
reads, not by existence checks). -/
theorem c4_get_exists_expiry_semantics (d : MemoryDriver) (key : String)
    (now : Int) (entry : CacheEntry)
    (hfind : d.store.findEntry (getFullKey d.options key) = some entry) :
    (entry.isExpired now = true →
      d.get key now
        = (none, { d with store := d.store.eraseEntry (getFullKey d.options key),
                          misses := d.misses + 1 })
      ∧ d.existsKey key now
        = (false, { d with store := d.store.eraseEntry (getFullKey d.options key) }))
    ∧ (entry.isExpired now = false →
      d.get key now
        = (some entry.value,
           { d with store := d.store.setEntry (getFullKey d.options key)
                               { entry with accessedAt := now },
                    hits := d.hits + 1 })
      ∧ d.existsKey key now = (true, d)) := by
  constructor <;> intro hexp <;>
    simp [MemoryDriver.get, MemoryDriver.existsKey, hfind, hexp]

/-- Witness for C4 on the concrete unexpired entry of `c4Driver`. -/
theorem c4_get_exists_expiry_semantics_witness :
    c4Driver.get "k" 10
      = (some (.str "v"),
         { c4Driver with store := Store.setEntry c4Driver.store "k" ⟨.str "v", none, 5, 10⟩,
                         hits := 1 })
    ∧ c4Driver.existsKey "k" 10 = (true, c4Driver) :=
  (c4_get_exists_expiry_semantics c4Driver "k" 10 ⟨.str "v", none, 5, 5⟩
    (by decide)).2 (by decide)

/-- Claim C5: along every event sequence the attempt counter never
exceeds `maxRetries ?? 5`; in any state that is out of attempts with no
pending timer and no in-flight attempt, a further connection failure
changes nothing (no reconnection is scheduled until an explicit
`reconnect()`); and under `{maxRetries := 2, retryDelay := 100,
exponentialBackoff := true}` three consecutive connection failures (the
initial error plus two failed scheduled attempts) end with
`reconnectAttempts = 2`, no pending timer, and no fourth attempt
scheduled on a further failure. -/
theorem c5_retry_bound (re : Option ReconnectPolicy) (es : List RedisEvent)
    (st : RedisConnState) (hconn : st.isConnecting = false)
    (hmax : maxRetriesOf re ≤ st.reconnectAttempts) :
    (redisRun re redisInit es).reconnectAttempts ≤ maxRetriesOf re
    ∧ redisStep re st .connError = st
    ∧ redisRun (some ⟨some 2, some 100, some true⟩) redisInit
        [.connError, .timerBegin, .timerEndFail, .timerBegin, .timerEndFail]
      = ⟨[], 2, false⟩
    ∧ redisStep (some ⟨some 2, some 100, some true⟩)
        ⟨[], 2, false⟩ .connError = ⟨[], 2, false⟩ := by
  refine ⟨(connInv_run re redisInit es (connInv_init re)).1, ?_, by decide, by decide⟩
  cases re with
  | none => simp [redisStep, handleConnectionError, hconn]
  | some r =>
      have hmax' : r.maxRetries.getD 5 ≤ st.reconnectAttempts := hmax
      simp [redisStep, handleConnectionError, hconn, hmax']

/-- Witness for C5 at the scenario configuration and its final state. -/
theorem c5_retry_bound_witness :
    (redisRun (some ⟨some 2, some 100, some true⟩) redisInit
        [.connError, .timerBegin, .timerEndFail, .timerBegin, .timerEndFail]).reconnectAttempts
      ≤ maxRetriesOf (some ⟨some 2, some 100, some true⟩)
    ∧ redisStep (some ⟨some 2, some 100, some true⟩)
        ⟨[], 2, false⟩ .connError = ⟨[], 2, false⟩ := by
  have h := c5_retry_bound (some ⟨some 2, some 100, some true⟩)
    [.connError, .timerBegin, .timerEndFail, .timerBegin, .timerEndFail]
    ⟨[], 2, false⟩ rfl (by decide)
  exact ⟨h.2.2.1 ▸ h.1, h.2.1⟩

/-- Claim C7: when a connection failure is handled (not during an
in-flight attempt) with `reconnectAttempts < maxRetries` and no timer
pending, exactly one timer is scheduled, with delay
`(retryDelay ?? 1000) * 2 ^ min(attempts, 6)` under exponential
backoff and `retryDelay ?? 1000` otherwise; a failure arriving while a
timer is pending leaves the pending timers unchanged; and along every
event sequence at most one timer is ever pending. -/
theorem c7_backoff_schedule (r : ReconnectPolicy) (st st2 : RedisConnState)
    (hconn : st.isConnecting = false)
    (htimer : st.reconnectTimers = [])
    (hatt : st.reconnectAttempts < r.maxRetries.getD 5)
    (hpending : st2.reconnectTimers ≠ []) :
    (redisStep (some r) st .connError).reconnectTimers
      = [if r.exponentialBackoff.getD true
         then r.retryDelay.getD 1000 * 2 ^ min st.reconnectAttempts 6
         else r.retryDelay.getD 1000]
    ∧ (redisStep (some r) st2 .connError).reconnectTimers = st2.reconnectTimers
    ∧ (∀ es, (redisRun (some r) redisInit es).reconnectTimers.length ≤ 1) := by
  refine ⟨?_, ?_, fun es => (connInv_run (some r) redisInit es (connInv_init _)).2.2⟩
  · simp [redisStep, handleConnectionError, scheduleReconnect, hconn, htimer,
      Nat.not_le.mpr hatt]
  · unfold redisStep handleConnectionError scheduleReconnect
    by_cases hc : st2.isConnecting
    · simp [hc]
    · by_cases hle : r.maxRetries.getD 5 ≤ st2.reconnectAttempts <;>
        simp [hc, hle, hpending]

/-- Witness for C7: a fresh driver schedules a 100 ms timer on its
first failure under `{maxRetries := 2, retryDelay := 100,
exponentialBackoff := true}`, and a failure with that timer pending
changes nothing. -/
theorem c7_backoff_schedule_witness :
    (redisStep (some ⟨some 2, some 100, some true⟩) redisInit
      .connError).reconnectTimers = [100]
    ∧ (redisStep (some ⟨some 2, some 100, some true⟩)
        ⟨[100], 0, false⟩ .connError).reconnectTimers = [100] := by
  have h := c7_backoff_schedule ⟨some 2, some 100, some true⟩ redisInit
    ⟨[100], 0, false⟩ rfl rfl (by decide) (by decide)
  exact ⟨by simpa using h.1, h.2.1⟩

/-- Claim C6 counterexample: two concurrent first-time calls for the
same uninitialized store name, interleaved at the `await
driver.initialize()` boundary (schedule A, B, A, B), both pass the
`!storeInstance.initialized` check and both invoke `initialize()`:
the underlying driver is initialized twice, not once. -/
theorem c6_concurrent_double_init :
    (raceRun raceInit [true, false, true, false]).shared.initCalls = 2
    ∧ (raceRun raceInit [true, false, true, false]).pcA = .done
    ∧ (raceRun raceInit [true, false, true, false]).pcB = .done
    ∧ ¬((raceRun raceInit [true, false, true, false]).shared.initCalls = 1) := by
  decide

/-- Claim C6 (amended): `getStoreInstance` guarantees a single
`initialize()` invocation only when first-time acquisitions are
serialized — a caller that starts after another completed the awaited
`initialize()` sees `initialized = true` and does not re-invoke it; the
code has no in-flight guard, so two calls that both pass the
`initialized` check before either `initialize()` resolves invoke it
once each. -/
theorem c6_serialized_single_init :
    (raceRun raceInit [true, true, false]).shared.initCalls = 1
    ∧ (raceRun raceInit [true, true, false]).pcA = .done
    ∧ (raceRun raceInit [true, true, false]).pcB = .done
    ∧ (raceRun raceInit [false, false, true]).shared.initCalls = 1
    ∧ (raceRun raceInit [true, false, true, false]).shared.initCalls = 2 := by
  decide

/-- Claim C8: every facade operation invoked before `Cache.initialize()`
(default store name still null) is refused with a configuration error
and performs no backend access. -/
theorem c8_uninitialized_facade_refuses (op : FacadeOp) :
    runFacadeOp uninitializedFacade op = (.error .configuration, 0) := by
  cases op <;> rfl

/-- Claim C9: a physically present but expired entry is still counted
by `delete` (which checks only `Map.has`) and by `deleteMultiple`,
while `get` and `exists` at the same instant report absence. -/
theorem c9_delete_counts_expired (d : MemoryDriver) (key : String)
    (now t : Int) (entry : CacheEntry)
    (hfind : d.store.findEntry (getFullKey d.options key) = some entry)
    (hexp : entry.expiresAt = some t) (ht : t < now) :
    (d.delete key).1 = true
    ∧ (d.deleteMultiple [key]).1 = 1
    ∧ (d.get key now).1 = none
    ∧ (d.existsKey key now).1 = false := by
  have hhas : d.store.hasKey (getFullKey d.options key) = true := by
    simp [Store.hasKey, hfind]
  have hexpired : entry.isExpired now = true := by
    simp [CacheEntry.isExpired, hexp, ht]
  refine ⟨?_, ?_, ?_, ?_⟩
  · simp [MemoryDriver.delete, hhas]
  · simp [MemoryDriver.deleteMultiple, MemoryDriver.delete, hhas]
  · simp [MemoryDriver.get, hfind, hexpired]
  · simp [MemoryDriver.existsKey, hfind, hexpired]

/-- Witness for C9: an entry that expired at time 1, observed at time 2. -/
theorem c9_delete_counts_expired_witness :
    let d : MemoryDriver := ⟨⟨none, none⟩, ⟨"", 3600, .strict, none⟩,
      [("k", ⟨.num 1, some 1, 0, 0⟩)], 0, 0, 0, 0⟩
    (d.delete "k").1 = true
    ∧ (d.deleteMultiple ["k"]).1 = 1
    ∧ (d.get "k" 2).1 = none
    ∧ (d.existsKey "k" 2).1 = false :=
  c9_delete_counts_expired
    ⟨⟨none, none⟩, ⟨"", 3600, .strict, none⟩, [("k", ⟨.num 1, some 1, 0, 0⟩)], 0, 0, 0, 0⟩
    "k" 2 1 ⟨.num 1, some 1, 0, 0⟩ (by decide) rfl (by decide)

/-- Claim C10: `increment` (and `decrement`, which delegates to it)
stores its result via `set` with no explicit ttl, so with a positive
configured default ttl the `expiresAt` of the written entry becomes
`now + defaultTtl * 1000` on every counter operation, whatever the
previous expiry of the key; and an unexpired current value of non-numeric
type is treated as zero, so `increment(k, n)` returns `n` and
overwrites the stored value with `n`. -/
theorem c10_counter_resets_expiry (d : MemoryDriver) (key : String)
    (n : Int) (now : Int) (hd : 0 < d.options.defaultTtl) :
    (Store.findEntry (d.increment key n now).2.store
        (getFullKey d.options key)).map CacheEntry.expiresAt
      = some (some (now + d.options.defaultTtl * 1000))
    ∧ d.decrement key n now = d.increment key (-n) now
    ∧ (∀ entry, d.store.findEntry (getFullKey d.options key) = some entry →
        entry.isExpired now = false →
        (∀ i : Int, entry.value ≠ .num i) →
        (d.increment key n now).1 = n
        ∧ (Store.findEntry (d.increment key n now).2.store
            (getFullKey d.options key)).map CacheEntry.value = some (.num n)) := by
  refine ⟨?_, rfl, ?_⟩
  · rcases h : d.store.findEntry (getFullKey d.options key) with _ | entry
    · simp [MemoryDriver.increment, MemoryDriver.get, h, MemoryDriver.set,
        MemoryDriver.effectiveTtl, Store.findEntry_setEntry_self, hd]
    · by_cases hx : entry.isExpired now <;>
        simp [MemoryDriver.increment, MemoryDriver.get, h, hx, MemoryDriver.set,
          MemoryDriver.effectiveTtl, Store.findEntry_setEntry_self, hd]
  · intro entry hfind hexp hnum
    have hzero : MemoryDriver.numericOrZero (some entry.value) = 0 := by
      cases hv : entry.value with
      | num i => exact absurd hv (hnum i)
      | str s => rfl
      | bool b => rfl
      | jnull => rfl
    constructor
    · simp [MemoryDriver.increment, MemoryDriver.get, hfind, hexp, hzero]
    · simp [MemoryDriver.increment, MemoryDriver.get, hfind, hexp, hzero,
        MemoryDriver.set, Store.findEntry_setEntry_self]

/-- Witness for C10 at a driver holding a never-expiring string entry
under the default ttl 3600. -/
theorem c10_counter_resets_expiry_witness :
    let d : MemoryDriver := ⟨⟨none, none⟩, ⟨"", 3600, .strict, none⟩,
      [("k", ⟨.str "v", none, 0, 0⟩)], 0, 0, 0, 0⟩
    (Store.findEntry (d.increment "k" 4 10).2.store "k").map CacheEntry.expiresAt
      = some (some 3600010)
    ∧ (d.increment "k" 4 10).1 = 4
    ∧ (Store.findEntry (d.increment "k" 4 10).2.store "k").map CacheEntry.value
      = some (.num 4) := by
  have h := c10_counter_resets_expiry
    ⟨⟨none, none⟩, ⟨"", 3600, .strict, none⟩, [("k", ⟨.str "v", none, 0, 0⟩)], 0, 0, 0, 0⟩
    "k" 4 10 (by decide)
  have h3 := h.2.2 ⟨.str "v", none, 0, 0⟩ (by decide) (by decide) (by intro i; simp)
  exact ⟨by simpa using h.1, h3.1, by simpa using h3.2⟩
